import Mathlib

/-!
Verification of the serving core of the energy-forecasting API
(`src/api/app.py`): the `ModelLoader` tiered fallback and the `/predict`
request pipeline.  Machine floats are modelled as rationals (no claim here
depends on floating-point rounding); the random generator behind
`np.random.randn` is an explicit entry function passed as a parameter;
exceptions are modelled by an explicit `Except` with the exception class
name, and the registry / artifact store that MLflow provides is an explicit
environment record.
-/

namespace EnergyForecastAPI

/-- A raised Python exception: its class name (`type(e).__name__`) and its
message.  `except ValueError` / `except KeyError` clauses are modelled by
comparing the class name. -/
structure PyExc where
  className : String
  msg : String
deriving DecidableEq, Repr

/-- A loaded MLflow pyfunc model: its one capability is `predict` on a 2-D
numeric matrix, which either returns a matrix or raises. -/
structure Handle where
  predictFn : List (List ℚ) → Except PyExc (List (List ℚ))

/-- A training run as returned by `MlflowClient.search_runs`; the loader
only reads `info.run_id`. -/
structure Run where
  run_id : String
deriving DecidableEq, Repr

/-- The external MLflow world as the loader sees it:
* `prodLoad`: result of `mlflow.pyfunc.load_model("models:/energy_forecasting_model/Production")`;
* `searchRuns`: result of `client.search_runs(experiment_ids=["1"], order_by=["start_time DESC"], max_results=1)` (a list, possibly empty, or a raised exception);
* `runLoad`: result of `mlflow.pyfunc.load_model("runs:/{run_id}/model")` for a given run id. -/
structure Env where
  prodLoad : Except PyExc Handle
  searchRuns : Except PyExc (List Run)
  runLoad : String → Except PyExc Handle

/-- The mutable attributes of `ModelLoader` that the fallback logic writes:
`self.model` and `self.model_version`. -/
structure LoaderState where
  model : Option Handle
  model_version : String

/-- `ModelLoader.__init__`: `self.model = None; self.model_version = "none"`. -/
def initLoader : LoaderState := { model := none, model_version := "none" }

/-- `ModelLoader.load_production_model`: try the Production registry alias;
on success set `model` and `model_version = "production"` and return True;
any exception is caught and returns False with the state untouched. -/
def load_production_model (env : Env) (s : LoaderState) : Bool × LoaderState :=
  match env.prodLoad with
  | .ok h => (true, { s with model := some h, model_version := "production" })
  | .error _ => (false, s)

/-- `ModelLoader.load_latest_model`: search runs of experiment 1 (newest
first, at most one result); if a run exists, load its artifact and set
`model_version = run_id[:8]`; no runs, a search failure or a load failure
return False with the state untouched. -/
def load_latest_model (env : Env) (s : LoaderState) : Bool × LoaderState :=
  match env.searchRuns with
  | .error _ => (false, s)
  | .ok [] => (false, s)
  | .ok (r :: _) =>
    match env.runLoad r.run_id with
    | .ok h => (true, { s with model := some h, model_version := r.run_id.take 8 })
    | .error _ => (false, s)

/-- `ModelLoader.load_model`: production tier, then latest-run tier, then
`model_version = "dummy"` (leaving `model` as it was, i.e. `None`). -/
def load_model (env : Env) (s : LoaderState) : LoaderState :=
  let p := load_production_model env s
  if p.1 then p.2
  else
    let l := load_latest_model env p.2
    if l.1 then l.2
    else { l.2 with model_version := "dummy" }

/-- The spec-side resolution outcome: `Production(handle)`,
`LatestRun(handle, run_id)` or `Unavailable`. -/
inductive ResolutionOutcome where
  | production (h : Handle)
  | latestRun (h : Handle) (run_id : String)
  | unavailable

/-- Modelled from the spec (§3 ResolutionOutcome, §4.1 resolve): the
classification of a startup environment into the outcome the fallback chain
reaches; the code realises it through `load_model`'s writes to
`LoaderState`. -/
def resolve (env : Env) : ResolutionOutcome :=
  match env.prodLoad with
  | .ok h => .production h
  | .error _ =>
    match env.searchRuns with
    | .ok (r :: _) =>
      match env.runLoad r.run_id with
      | .ok h => .latestRun h r.run_id
      | .error _ => .unavailable
    | _ => .unavailable

/-! ## The `/predict` pipeline -/

/-- A JSON value reaching `np.array(..., dtype=np.float32)`: a number or a
nested list.  (Non-numeric leaves would raise just like ragged nesting;
every claim here involves numeric leaves only.) -/
inductive PyVal where
  | num (x : ℚ)
  | arr (l : List PyVal)

mutual

/-- The shape `np.array(v, dtype=np.float32)` infers, or `none` when numpy
1.24 raises `ValueError` for an inhomogeneous (ragged / mixed-depth)
nesting: a number has shape `[]`, an empty list `[0]`, and a non-empty list
`len :: s` provided all its elements share the shape `s`. -/
def npShape : PyVal → Option (List Nat)
  | .num _ => some []
  | .arr l =>
    match npShapes l with
    | none => none
    | some [] => some [0]
    | some (s :: ss) => if ss.all (fun t => t = s) then some (l.length :: s) else none

/-- Shapes of a list of values, `none` as soon as one is inhomogeneous. -/
def npShapes : List PyVal → Option (List (List Nat))
  | [] => some []
  | x :: xs =>
    match npShape x, npShapes xs with
    | some s, some ss => some (s :: ss)
    | _, _ => none

end

/-- Numeric content of a leaf (defaulting 0 on a list; never reached on a
value whose `npShape` is 2-D). -/
def pyNum : PyVal → ℚ
  | .num q => q
  | .arr _ => 0

/-- One row of a 2-D array (defaulting on a leaf; never reached when the
shape is 2-D). -/
def rowOf : PyVal → List ℚ
  | .num _ => []
  | .arr l => l.map pyNum

/-- The row matrix a value with a 2-D `npShape` denotes. -/
def extractRows : PyVal → List (List ℚ)
  | .num _ => []
  | .arr l => l.map rowOf

/-- Re-embedding of a plain row matrix as a JSON value. -/
def matToVal (rows : List (List ℚ)) : PyVal :=
  .arr (rows.map (fun r => .arr (r.map PyVal.num)))

/-- Body of a `/predict` response: either the success payload
`{"predictions": ..., "model_version": ...}` or the error payload
`{"error": ..., "error_type": ...}`. -/
inductive RespBody where
  | ok (predictions : List (List ℚ)) (model_version : String)
  | err (error : String) (error_type : String)
deriving DecidableEq, Repr

/-- A Flask `(jsonify(...), status)` pair. -/
structure Resp where
  body : RespBody
  status : Nat
deriving DecidableEq, Repr

/-- The `error_type` field of a response body, when it is an error. -/
def RespBody.errorTypeOf : RespBody → Option String
  | .ok _ _ => none
  | .err _ t => some t

/-- `np.random.randn(n, k).tolist()`: an `n × k` matrix of draws; the
underlying stream of draws is the explicit entry function `rng`. -/
def randn (rng : Nat → Nat → ℚ) (n k : Nat) : List (List ℚ) :=
  (List.range n).map (fun i => (List.range k).map (fun j => rng i j))

/-- The fixed dummy output width (`np.random.randn(sequences.shape[0], 24)`). -/
def output_steps : Nat := 24

/-- The `except ValueError / except KeyError / except Exception` chain at
the bottom of `predict`: `ValueError` and `KeyError` become 400 responses
with those literal `error_type` tags; anything else becomes a 500 response
whose `error_type` is the exception class name. -/
def dispatchExc (e : PyExc) : Resp :=
  if e.className = "ValueError" then
    { body := .err ("Invalid data format: " ++ e.msg) "ValueError", status := 400 }
  else if e.className = "KeyError" then
    { body := .err ("Missing key in request: " ++ e.msg) "KeyError", status := 400 }
  else
    { body := .err ("Internal server error: " ++ e.msg) e.className, status := 500 }

/-- The exception numpy 1.24 raises on an inhomogeneous nested list under
`dtype=np.float32` (its message is abbreviated; no claim reads it). -/
def npRaggedExc : PyExc :=
  { className := "ValueError", msg := "setting an array element with a sequence" }

/-- The invocation stage of `predict` (the code after input validation):
with a loaded model and at least one input row, call `model.predict` and
dispatch anything it raises through the handler chain; otherwise emit
`np.random.randn(rows, 24)`.  Either way the response carries
`model_loader.model_version` unchanged. -/
def predictInvoke (s : LoaderState) (sequences : List (List ℚ))
    (rng : Nat → Nat → ℚ) : Resp :=
  match s.model with
  | some h =>
    if sequences.length > 0 then
      match h.predictFn sequences with
      | .ok preds => { body := .ok preds s.model_version, status := 200 }
      | .error e => dispatchExc e
    else
      { body := .ok (randn rng sequences.length output_steps) s.model_version, status := 200 }
  | none =>
    { body := .ok (randn rng sequences.length output_steps) s.model_version, status := 200 }

/-- Python dict lookup on the parsed JSON mapping. -/
def lookupKey (k : String) (d : List (String × PyVal)) : Option PyVal :=
  match d.find? (fun p => p.1 = k) with
  | some p => some p.2
  | none => none

/-- The `/predict` handler.  `data` is `request.get_json()`: `none` when no
JSON body is present, otherwise the parsed mapping.  `if not data` fires on
an absent body and on an empty mapping alike; then the `sequences` key is
required; then `np.array(..., dtype=np.float32)` either raises `ValueError`
(ragged input, dispatched through the handler chain) or yields an array
whose `ndim` must be 2; finally the invocation stage runs.  The handler
never assigns to `model_loader`, so it returns the loader state unchanged. -/
def predict (s : LoaderState) (data : Option (List (String × PyVal)))
    (rng : Nat → Nat → ℚ) : Resp × LoaderState :=
  let resp :=
    match data with
    | none => { body := .err "No JSON data provided" "MissingData", status := 400 : Resp }
    | some d =>
      if d.isEmpty then
        { body := .err "No JSON data provided" "MissingData", status := 400 }
      else
        match lookupKey "sequences" d with
        | none => { body := .err "Missing sequences field in request" "MissingField", status := 400 }
        | some v =>
          match npShape v with
          | none => dispatchExc npRaggedExc
          | some shp =>
            if shp.length ≠ 2 then
              { body := .err "Sequences must be a 2D array" "InvalidDimension", status := 400 }
            else
              predictInvoke s (extractRows v) rng
  (resp, s)

/-- The `/health` handler: reads the loader state, writes nothing. -/
def health_check (s : LoaderState) (timestamp : String) :
    (List (String × String) × Nat) × LoaderState :=
  (([("status", "healthy"),
     ("model", if s.model.isSome then "loaded" else "dummy"),
     ("model_version", s.model_version),
     ("timestamp", timestamp)], 200), s)

/-- The `/info` handler: reads the loader state, writes nothing. -/
def model_info (s : LoaderState) (tracking_uri : String) :
    (List (String × String) × Nat) × LoaderState :=
  (([("model_version", s.model_version),
     ("model_loaded", if s.model.isSome then "true" else "false"),
     ("mlflow_tracking_uri", tracking_uri)], 200), s)

/-! ## Sample objects used by witnesses and counterexamples -/

/-- A fixed draw stream for the dummy generator. -/
def rng0 : Nat → Nat → ℚ := fun _ _ => 0

/-- A well-behaved model: returns a 24-wide zero row per input row. -/
def hOk : Handle :=
  { predictFn := fun m => .ok (m.map (fun _ => List.replicate output_steps 0)) }

/-- A model whose predict raises `ValueError`. -/
def hRaiseVal : Handle :=
  { predictFn := fun _ => .error { className := "ValueError", msg := "bad input tensor" } }

/-- A model whose predict raises `RuntimeError`. -/
def hRaiseRt : Handle :=
  { predictFn := fun _ => .error { className := "RuntimeError", msg := "size mismatch" } }

/-- Loader state after a fully missed resolution. -/
def s0 : LoaderState := { model := none, model_version := "dummy" }

/-- Loader state after a successful production-tier resolution. -/
def sProd : LoaderState := { model := some hOk, model_version := "production" }

/-- The ragged payload `[[1,2],[3,4,5]]`. -/
def raggedVal : PyVal :=
  .arr [.arr [.num 1, .num 2], .arr [.num 3, .num 4, .num 5]]

/-! ## Helper lemmas -/

theorem npShapes_const (vl : List PyVal) (s : List Nat)
    (h : ∀ v ∈ vl, npShape v = some s) :
    npShapes vl = some (vl.map fun _ => s) := by
  induction vl with
  | nil => simp [npShapes]
  | cons x xs ih =>
    have hx := h x (List.mem_cons_self x xs)
    have hxs := ih (fun v hv => h v (List.mem_cons_of_mem x hv))
    simp [npShapes, hx, hxs]

theorem npShape_arr_const (vl : List PyVal) (s : List Nat) (hne : vl ≠ [])
    (h : ∀ v ∈ vl, npShape v = some s) :
    npShape (.arr vl) = some (vl.length :: s) := by
  cases vl with
  | nil => exact absurd rfl hne
  | cons x xs =>
    have hs := npShapes_const (x :: xs) s h
    simp [npShape, hs, List.all_eq_true]

theorem npShape_numRow (r : List ℚ) :
    npShape (.arr (r.map PyVal.num)) = some [r.length] := by
  cases r with
  | nil => simp [npShape, npShapes]
  | cons a as =>
    have h : ∀ v ∈ (a :: as).map PyVal.num, npShape v = some [] := by
      intro v hv
      simp only [List.mem_map] at hv
      obtain ⟨q, _, rfl⟩ := hv
      rfl
    simpa using npShape_arr_const ((a :: as).map PyVal.num) [] (by simp) h

theorem npShape_matToVal (rows : List (List ℚ)) (l : Nat) (hne : rows ≠ [])
    (hl : ∀ r ∈ rows, r.length = l) :
    npShape (matToVal rows) = some [rows.length, l] := by
  have h : ∀ v ∈ rows.map (fun r => PyVal.arr (r.map PyVal.num)),
      npShape v = some [l] := by
    intro v hv
    simp only [List.mem_map] at hv
    obtain ⟨r, hr, rfl⟩ := hv
    rw [npShape_numRow, hl r hr]
  have hne2 : rows.map (fun r => PyVal.arr (r.map PyVal.num)) ≠ [] := by
    simpa [List.map_eq_nil_iff] using hne
  simpa [matToVal] using npShape_arr_const _ [l] hne2 h

theorem extractRows_matToVal (rows : List (List ℚ)) :
    extractRows (matToVal rows) = rows := by
  simp only [extractRows, matToVal, List.map_map]
  have : ∀ r : List ℚ, rowOf (PyVal.arr (r.map PyVal.num)) = r := by
    intro r
    simp only [rowOf, List.map_map]
    have h2 : List.map (pyNum ∘ PyVal.num) r = List.map id r :=
      List.map_congr_left (fun q _ => rfl)
    simpa using h2
  simpa [Function.comp] using List.map_congr_left
    (fun r _ => this r) |>.trans (List.map_id rows)

theorem extractRows_length {v : PyVal} {n l : Nat} (h : npShape v = some [n, l]) :
    (extractRows v).length = n := by
  cases v with
  | num q => simp [npShape] at h
  | arr vl =>
    simp only [npShape] at h
    cases hs : npShapes vl with
    | none => rw [hs] at h; simp at h
    | some shapes =>
      rw [hs] at h
      cases shapes with
      | nil => simp at h
      | cons s ss =>
        by_cases hall : ss.all (fun t => decide (t = s))
        · simp [hall] at h
          simp [extractRows, h.1]
        · simp [hall] at h

theorem randn_length (rng : Nat → Nat → ℚ) (n k : Nat) :
    (randn rng n k).length = n := by
  simp [randn]

theorem randn_row_length (rng : Nat → Nat → ℚ) (n k : Nat) :
    ∀ row ∈ randn rng n k, row.length = k := by
  intro row h
  simp only [randn, List.mem_map] at h
  obtain ⟨i, _, rfl⟩ := h
  simp

/-- Reduction of `predict` once the body is a non-empty mapping carrying a
`sequences` value: what remains is the array conversion, the dimension
check and the invocation stage. -/
theorem predict_parsed (s : LoaderState) (d : List (String × PyVal)) (v : PyVal)
    (rng : Nat → Nat → ℚ) (hd : d ≠ []) (hk : lookupKey "sequences" d = some v) :
    (predict s (some d) rng).1 =
      match npShape v with
      | none => dispatchExc npRaggedExc
      | some shp =>
        if shp.length ≠ 2 then
          { body := .err "Sequences must be a 2D array" "InvalidDimension", status := 400 }
        else predictInvoke s (extractRows v) rng := by
  cases d with
  | nil => exact absurd rfl hd
  | cons p ps => simp [predict, hk]

/-! ## Claims -/

/-- C1: model resolution always completes (the embedded `load_model` is a
total function) and yields exactly one of the three outcomes, following the
fallback chain in order: a successful Tier-1 production load gives
Production with version label "production" and makes the result independent
of the Tier-2 environment (tier short-circuit); otherwise a latest run
whose artifact loads gives LatestRun with the 8-character run-id prefix;
otherwise the terminal state is Unavailable with label "dummy".  Tier
failures are values of the environment, never propagated. -/
theorem C1_resolution_fallback_chain (env : Env) :
    ((∃ h, resolve env = .production h) ∨
      (∃ h r, resolve env = .latestRun h r) ∨ resolve env = .unavailable) ∧
    (∀ h, env.prodLoad = .ok h →
      resolve env = .production h ∧
      load_model env initLoader = { model := some h, model_version := "production" } ∧
      ∀ sr rl,
        load_model { prodLoad := env.prodLoad, searchRuns := sr, runLoad := rl } initLoader =
          load_model env initLoader) ∧
    (∀ e r rs h, env.prodLoad = .error e → env.searchRuns = .ok (r :: rs) →
      env.runLoad r.run_id = .ok h →
      resolve env = .latestRun h r.run_id ∧
      load_model env initLoader = { model := some h, model_version := r.run_id.take 8 }) ∧
    (∀ e, env.prodLoad = .error e →
      (∀ r rs h, env.searchRuns = .ok (r :: rs) → env.runLoad r.run_id ≠ .ok h) →
      resolve env = .unavailable ∧
      load_model env initLoader = { model := none, model_version := "dummy" }) := by
  obtain ⟨p, sruns, rload⟩ := env
  refine ⟨?_, ?_, ?_, ?_⟩
  · cases p with
    | ok h => exact Or.inl ⟨h, rfl⟩
    | error e =>
      cases sruns with
      | error e2 => exact Or.inr (Or.inr rfl)
      | ok runs =>
        cases runs with
        | nil => exact Or.inr (Or.inr rfl)
        | cons r rest =>
          cases hrl : rload r.run_id with
          | ok h => exact Or.inr (Or.inl ⟨h, r.run_id, by simp [resolve, hrl]⟩)
          | error e3 => exact Or.inr (Or.inr (by simp [resolve, hrl]))
  · intro h hp
    subst hp
    refine ⟨rfl, rfl, ?_⟩
    intro sr rl
    rfl
  · intro e r rs h hp hs hr
    subst hp
    subst hs
    have hr2 : rload r.run_id = .ok h := hr
    exact ⟨by simp [resolve, hr2],
      by simp [load_model, load_production_model, load_latest_model, hr2, initLoader]⟩
  · intro e hp hmiss
    subst hp
    cases sruns with
    | error e2 => exact ⟨rfl, rfl⟩
    | ok runs =>
      cases runs with
      | nil => exact ⟨rfl, rfl⟩
      | cons r rest =>
        cases hrl : rload r.run_id with
        | ok h => exact absurd hrl (hmiss r rest h rfl)
        | error e3 =>
          exact ⟨by simp [resolve, hrl],
            by simp [load_model, load_production_model, load_latest_model, hrl, initLoader]⟩

/-- A production-tier miss, as an exception value. -/
def excMiss : PyExc := { className := "MlflowException", msg := "model not found" }

/-- Environment where the production tier succeeds. -/
def envProd : Env :=
  { prodLoad := .ok hOk, searchRuns := .error excMiss, runLoad := fun _ => .error excMiss }

/-- Environment where only the latest-run tier succeeds. -/
def envLatest : Env :=
  { prodLoad := .error excMiss,
    searchRuns := .ok [{ run_id := "abcdef1234567890" }],
    runLoad := fun _ => .ok hOk }

/-- Environment where every tier misses. -/
def envMiss : Env :=
  { prodLoad := .error excMiss, searchRuns := .ok [], runLoad := fun _ => .error excMiss }

/-- Witness for C1: the three sample environments land in the three
outcomes the theorem describes. -/
theorem C1_resolution_fallback_chain_witness :
    load_model envProd initLoader = { model := some hOk, model_version := "production" } ∧
    load_model envLatest initLoader =
      { model := some hOk, model_version := "abcdef1234567890".take 8 } ∧
    load_model envMiss initLoader = { model := none, model_version := "dummy" } :=
  ⟨((C1_resolution_fallback_chain envProd).2.1 hOk rfl).2.1,
   ((C1_resolution_fallback_chain envLatest).2.2.1 excMiss { run_id := "abcdef1234567890" }
      [] hOk rfl rfl rfl).2,
   ((C1_resolution_fallback_chain envMiss).2.2.2 excMiss rfl
      (by intro r rs h heq; simp [envMiss] at heq)).2⟩

/-- C5: after resolution the version label is one of "production", the
8-character prefix of the run id returned by the run search, or "dummy";
and no request handler changes the loader state. -/
theorem C5_model_version_invariant :
    (∀ env, (load_model env initLoader).model_version = "production" ∨
      (∃ r rs, env.searchRuns = .ok (r :: rs) ∧
        (load_model env initLoader).model_version = r.run_id.take 8) ∨
      (load_model env initLoader).model_version = "dummy") ∧
    (∀ s data rng, (predict s data rng).2 = s) ∧
    (∀ s t, (health_check s t).2 = s) ∧
    (∀ s u, (model_info s u).2 = s) := by
  refine ⟨?_, fun s data rng => rfl, fun s t => rfl, fun s u => rfl⟩
  intro env
  obtain ⟨p, sruns, rload⟩ := env
  cases p with
  | ok h => exact Or.inl rfl
  | error e =>
    cases sruns with
    | error e2 => exact Or.inr (Or.inr rfl)
    | ok runs =>
      cases runs with
      | nil => exact Or.inr (Or.inr rfl)
      | cons r rest =>
        cases hrl : rload r.run_id with
        | ok h =>
          refine Or.inr (Or.inl ⟨r, rest, rfl, ?_⟩)
          simp [load_model, load_production_model, load_latest_model, hrl, initLoader]
        | error e3 =>
          refine Or.inr (Or.inr ?_)
          simp [load_model, load_production_model, load_latest_model, hrl, initLoader]

/-- C2 counterexample: at N = 0 the only JSON form of an empty matrix is
the empty list, `np.array([])` is one-dimensional, and the request is
rejected with 400 InvalidDimension — not served with an empty success
response as the claim states. -/
theorem C2_counterexample :
    (predict s0 (some [("sequences", PyVal.arr [])]) rng0).1 =
      { body := .err "Sequences must be a 2D array" "InvalidDimension", status := 400 } ∧
    (predict s0 (some [("sequences", PyVal.arr [])]) rng0).1.status ≠ 200 :=
  ⟨rfl, by decide⟩

/-- C2 amended: for every rectangular numeric matrix with N ≥ 1 rows (any
row length, zero included), the dummy path returns an N × 24 matrix with
status 200; the N = 0 case, an empty sequences list, is one-dimensional
and is rejected with 400 InvalidDimension. -/
theorem C2_dummy_path_shape (s : LoaderState) (d : List (String × PyVal))
    (rows : List (List ℚ)) (l : Nat) (rng : Nat → Nat → ℚ)
    (hmodel : s.model = none) (hd : d ≠ [])
    (hk : lookupKey "sequences" d = some (matToVal rows))
    (hne : rows ≠ []) (hl : ∀ r ∈ rows, r.length = l) :
    (predict s (some d) rng).1 =
      { body := .ok (randn rng rows.length output_steps) s.model_version, status := 200 } ∧
    (randn rng rows.length output_steps).length = rows.length ∧
    (∀ row ∈ randn rng rows.length output_steps, row.length = 24) ∧
    (predict s (some [("sequences", PyVal.arr [])]) rng).1 =
      { body := .err "Sequences must be a 2D array" "InvalidDimension", status := 400 } := by
  refine ⟨?_, randn_length rng rows.length output_steps,
    randn_row_length rng rows.length output_steps, rfl⟩
  rw [predict_parsed s d (matToVal rows) rng hd hk, npShape_matToVal rows l hne hl]
  simp [extractRows_matToVal, predictInvoke, hmodel]

/-- Witness for C2 (amended): a 2 × 2 input with no model loaded produces
the 2 × 24 dummy matrix with status 200. -/
theorem C2_dummy_path_shape_witness :
    (predict s0 (some [("sequences", matToVal [[1, 2], [3, 4]])]) rng0).1 =
      { body := .ok (randn rng0 2 output_steps) "dummy", status := 200 } ∧
    (randn rng0 2 output_steps).length = 2 :=
  ⟨(C2_dummy_path_shape s0 [("sequences", matToVal [[1, 2], [3, 4]])] [[1, 2], [3, 4]] 2 rng0
      rfl (by simp) rfl (by simp) (by decide)).1,
   (C2_dummy_path_shape s0 [("sequences", matToVal [[1, 2], [3, 4]])] [[1, 2], [3, 4]] 2 rng0
      rfl (by simp) rfl (by simp) (by decide)).2.1⟩

/-- C4 counterexample: the ragged payload [[1,2],[3,4,5]] makes
`np.array(..., dtype=np.float32)` raise ValueError, which the handler chain
turns into 400 with error_type "ValueError" — not "InvalidDimension" as
the claim states. -/
theorem C4_counterexample :
    (predict s0 (some [("sequences", raggedVal)]) rng0).1 =
      { body := .err ("Invalid data format: " ++ npRaggedExc.msg) "ValueError", status := 400 } ∧
    (predict s0 (some [("sequences", raggedVal)]) rng0).1.body.errorTypeOf ≠
      some "InvalidDimension" :=
  ⟨rfl, by decide⟩

/-- C4 amended: a sequences value that is not a well-formed 2-D matrix is
rejected with status 400; the error_type is "ValueError" when the nesting
is ragged (the array conversion itself raises), and "InvalidDimension" when
the conversion succeeds with a number of dimensions other than 2 (1-D, 3-D,
scalar). -/
theorem C4_dimension_errors (s : LoaderState) (d : List (String × PyVal)) (v : PyVal)
    (rng : Nat → Nat → ℚ) (hd : d ≠ []) (hk : lookupKey "sequences" d = some v) :
    (npShape v = none →
      (predict s (some d) rng).1 =
        { body := .err ("Invalid data format: " ++ npRaggedExc.msg) "ValueError",
          status := 400 }) ∧
    (∀ shp, npShape v = some shp → shp.length ≠ 2 →
      (predict s (some d) rng).1 =
        { body := .err "Sequences must be a 2D array" "InvalidDimension", status := 400 }) := by
  constructor
  · intro hnone
    rw [predict_parsed s d v rng hd hk, hnone]
    rfl
  · intro shp hshp hlen
    rw [predict_parsed s d v rng hd hk, hshp]
    simp [hlen, dispatchExc]

/-- Witness for C4 (amended): the ragged payload gives 400 ValueError and
the 1-D payload [1,2] gives 400 InvalidDimension. -/
theorem C4_dimension_errors_witness :
    (predict s0 (some [("sequences", raggedVal)]) rng0).1 =
      { body := .err ("Invalid data format: " ++ npRaggedExc.msg) "ValueError",
        status := 400 } ∧
    (predict s0 (some [("sequences", PyVal.arr [.num 1, .num 2])]) rng0).1 =
      { body := .err "Sequences must be a 2D array" "InvalidDimension", status := 400 } :=
  ⟨(C4_dimension_errors s0 [("sequences", raggedVal)] raggedVal rng0 (by simp) rfl).1 rfl,
   (C4_dimension_errors s0 [("sequences", PyVal.arr [.num 1, .num 2])]
      (PyVal.arr [.num 1, .num 2]) rng0 (by simp) rfl).2 [2] rfl (by decide)⟩

/-- C7: an absent body and an empty mapping both fail the truthiness check
`if not data` and short-circuit to 400 MissingData before any later
validation stage. -/
theorem C7_missing_data (s : LoaderState) (rng : Nat → Nat → ℚ) :
    predict s none rng =
      ({ body := .err "No JSON data provided" "MissingData", status := 400 }, s) ∧
    predict s (some []) rng =
      ({ body := .err "No JSON data provided" "MissingData", status := 400 }, s) :=
  ⟨rfl, rfl⟩

/-- C10: the empty mapping is falsy in Python, so a body of `\x7b\x7d` is
handled exactly like an absent body: 400 MissingData, never reaching the
MissingField check. -/
theorem C10_empty_mapping_like_absent (s : LoaderState) (rng : Nat → Nat → ℚ) :
    predict s (some []) rng = predict s none rng ∧
    (predict s (some []) rng).1.body.errorTypeOf = some "MissingData" ∧
    (predict s (some []) rng).1.status = 400 :=
  ⟨rfl, rfl, rfl⟩

/-- C8 counterexample: the empty mapping is a present, parseable mapping
without the sequences key, yet it yields MissingData (the truthiness check
fires first), not MissingField as the claim states. -/
theorem C8_counterexample :
    (predict s0 (some []) rng0).1.body.errorTypeOf = some "MissingData" ∧
    (predict s0 (some []) rng0).1.body.errorTypeOf ≠ some "MissingField" :=
  ⟨rfl, by decide⟩

/-- C8 amended: a present, parseable, non-empty mapping without the
sequences key yields 400 MissingField. -/
theorem C8_missing_field (s : LoaderState) (d : List (String × PyVal))
    (rng : Nat → Nat → ℚ) (hne : d ≠ []) (hk : lookupKey "sequences" d = none) :
    predict s (some d) rng =
      ({ body := .err "Missing sequences field in request" "MissingField", status := 400 }, s) := by
  cases d with
  | nil => exact absurd rfl hne
  | cons p ps => simp [predict, hk]

/-- Witness for C8 (amended): a mapping with only an unrelated key gives
400 MissingField. -/
theorem C8_missing_field_witness :
    predict s0 (some [("foo", PyVal.num 1)]) rng0 =
      ({ body := .err "Missing sequences field in request" "MissingField", status := 400 }, s0) :=
  C8_missing_field s0 [("foo", PyVal.num 1)] rng0 (by simp) rfl

/-- The handler chain always produces an error payload, never a success
payload. -/
theorem dispatchExc_body_err (e : PyExc) :
    ∃ m t, (dispatchExc e).body = .err m t := by
  unfold dispatchExc
  split
  · exact ⟨_, _, rfl⟩
  · split
    · exact ⟨_, _, rfl⟩
    · exact ⟨_, _, rfl⟩

/-- C3 amended: an exception raised by model invocation other than a
ValueError or KeyError surfaces as a 500 response whose error_type is the
exception class name (the body carries only a message, no trace); a
ValueError or KeyError raised by invocation is intercepted by the earlier
handlers and surfaces as a 400 response instead. -/
theorem C3_invocation_error_dispatch (s : LoaderState) (h : Handle)
    (d : List (String × PyVal)) (v : PyVal) (n l : Nat) (rng : Nat → Nat → ℚ)
    (e : PyExc) (hs : s.model = some h) (hd : d ≠ [])
    (hk : lookupKey "sequences" d = some v) (hshape : npShape v = some [n, l])
    (hn : 0 < n) (he : h.predictFn (extractRows v) = .error e) :
    (e.className ≠ "ValueError" → e.className ≠ "KeyError" →
      (predict s (some d) rng).1 =
        { body := .err ("Internal server error: " ++ e.msg) e.className, status := 500 }) ∧
    (e.className = "ValueError" →
      (predict s (some d) rng).1 =
        { body := .err ("Invalid data format: " ++ e.msg) "ValueError", status := 400 }) ∧
    (e.className = "KeyError" →
      (predict s (some d) rng).1 =
        { body := .err ("Missing key in request: " ++ e.msg) "KeyError", status := 400 }) := by
  have hp : (extractRows v).length > 0 := by
    rw [extractRows_length hshape]; exact hn
  have hred : (predict s (some d) rng).1 = dispatchExc e := by
    rw [predict_parsed s d v rng hd hk, hshape]
    simp [predictInvoke, hs, hp, he]
  refine ⟨fun h1 h2 => ?_, fun h1 => ?_, fun h1 => ?_⟩ <;>
    rw [hred] <;> simp [dispatchExc, h1, *]

/-- Witness for C3 (amended): a RuntimeError from invocation gives a 500
response tagged RuntimeError. -/
theorem C3_invocation_error_dispatch_witness :
    (predict { model := some hRaiseRt, model_version := "production" }
        (some [("sequences", matToVal [[1, 2]])]) rng0).1 =
      { body := .err ("Internal server error: " ++ "size mismatch") "RuntimeError",
        status := 500 } :=
  (C3_invocation_error_dispatch { model := some hRaiseRt, model_version := "production" }
      hRaiseRt [("sequences", matToVal [[1, 2]])] (matToVal [[1, 2]]) 1 2 rng0
      { className := "RuntimeError", msg := "size mismatch" }
      rfl (by simp) rfl (by decide) (by decide) rfl).1 (by decide) (by decide)

/-- C3 counterexample: a ValueError raised by model invocation is caught by
the dedicated ValueError handler and surfaces as a 400 response, not the
500-class response the claim demands for every invocation error. -/
theorem C3_counterexample :
    (predict { model := some hRaiseVal, model_version := "production" }
        (some [("sequences", matToVal [[1, 2]])]) rng0).1 =
      { body := .err "Invalid data format: bad input tensor" "ValueError", status := 400 } ∧
    (predict { model := some hRaiseVal, model_version := "production" }
        (some [("sequences", matToVal [[1, 2]])]) rng0).1.status ≠ 500 :=
  ⟨rfl, by decide⟩

/-- C6: every 200 response to a parsed N × L request carries exactly N
prediction rows, on the model path under the hypothesis that the handle
preserves row count, and unconditionally on the dummy path. -/
theorem C6_row_count_preserved (s : LoaderState) (d : List (String × PyVal)) (v : PyVal)
    (rng : Nat → Nat → ℚ) (n l : Nat) (preds : List (List ℚ)) (ver : String)
    (hmodel : ∀ h, s.model = some h → ∀ m out, h.predictFn m = .ok out →
      out.length = m.length)
    (hd : d ≠ []) (hk : lookupKey "sequences" d = some v)
    (hshape : npShape v = some [n, l])
    (hresp : (predict s (some d) rng).1 = { body := .ok preds ver, status := 200 }) :
    preds.length = n := by
  rw [predict_parsed s d v rng hd hk, hshape] at hresp
  simp at hresp
  have hlen := extractRows_length hshape
  cases hm : s.model with
  | none =>
    simp only [predictInvoke, hm] at hresp
    have hpreds : randn rng (extractRows v).length output_steps = preds := by
      have hb := congrArg Resp.body hresp
      exact (by simpa using hb : _ ∧ s.model_version = ver).1
    rw [← hpreds, randn_length, hlen]
  | some h =>
    simp only [predictInvoke, hm] at hresp
    by_cases hp : (extractRows v).length > 0
    · rw [if_pos hp] at hresp
      cases hpf : h.predictFn (extractRows v) with
      | ok out =>
        rw [hpf] at hresp
        have hout : out = preds := by
          have hb := congrArg Resp.body hresp
          exact (by simpa using hb : _ ∧ s.model_version = ver).1
        rw [← hout, hmodel h hm _ _ hpf, hlen]
      | error e =>
        rw [hpf] at hresp
        obtain ⟨m, t, hmt⟩ := dispatchExc_body_err e
        have hb := congrArg Resp.body hresp
        rw [hmt] at hb
        simp at hb
    · rw [if_neg hp] at hresp
      have hpreds : randn rng (extractRows v).length output_steps = preds := by
        have hb := congrArg Resp.body hresp
        exact (by simpa using hb : _ ∧ s.model_version = ver).1
      rw [← hpreds, randn_length, hlen]

/-- Witness for C6: a 1 × 2 request against a row-preserving model yields a
200 response with exactly 1 prediction row. -/
theorem C6_row_count_preserved_witness :
    (predict sProd (some [("sequences", matToVal [[1, 2]])]) rng0).1 =
      { body := .ok [List.replicate output_steps (0 : ℚ)] "production", status := 200 } ∧
    [List.replicate output_steps (0 : ℚ)].length = 1 :=
  ⟨rfl,
   C6_row_count_preserved sProd [("sequences", matToVal [[1, 2]])] (matToVal [[1, 2]]) rng0
     1 2 [List.replicate output_steps (0 : ℚ)] "production"
     (by intro h hh m out hpf
         simp only [sProd] at hh
         rw [Option.some_inj] at hh
         subst hh
         simp only [hOk] at hpf
         rw [Except.ok.injEq] at hpf
         subst hpf
         simp)
     (by simp) rfl (by decide) rfl⟩

/-- C9: with a model loaded and a zero-row validated matrix, the invocation
stage takes the dummy branch (its output is the 0 × 24 dummy matrix, the
empty list), and the response still carries the resolved model_version of
the loader, not "dummy". -/
theorem C9_zero_rows_keeps_model_label (s : LoaderState) (h : Handle)
    (rng : Nat → Nat → ℚ) (hs : s.model = some h) :
    predictInvoke s [] rng =
      { body := .ok (randn rng 0 output_steps) s.model_version, status := 200 } ∧
    randn rng 0 output_steps = [] := by
  refine ⟨?_, rfl⟩
  simp [predictInvoke, hs]

/-- Witness for C9: with the production model loaded, a zero-row matrix
yields an empty dummy prediction carrying the label "production". -/
theorem C9_zero_rows_keeps_model_label_witness :
    predictInvoke sProd [] rng0 =
      { body := .ok (randn rng0 0 output_steps) "production", status := 200 } ∧
    randn rng0 0 output_steps = [] :=
  C9_zero_rows_keeps_model_label sProd hOk rng0 rfl

end EnergyForecastAPI
